import Mathlib

/-!
Verification of the WISPER ORACLES calibration-and-uncertainty pipeline
(`apply_cal+QC/scripts/pic2_fullcal.py` and `apply_cal+QC/uncertainty_estimation.py`).

Floating-point values are modelled as real numbers; numpy/pandas NaN
propagation is modelled with `Option ℝ`, where `none` stands for a
missing/NaN entry and every lifted arithmetic operation maps `none` to
`none` (as IEEE arithmetic maps NaN to NaN for these formulas).
-/

noncomputable section

namespace WISPER

/-- Lift a binary real operation to `Option ℝ`, propagating missing values:
the result is present only when both operands are. -/
def lift2 (f : ℝ → ℝ → ℝ) : Option ℝ → Option ℝ → Option ℝ
  | some x, some y => some (f x y)
  | _, _ => none

/-! ## Correction formulas (pic2_fullcal.py, `pic2_cal16`, lines 157-174) -/

/-- Formula for the humidity dependence correction, for either dD or d18O;
input is the log of humidity q in ppmv (`qdep_correction` in
`pic2_fullcal.py`): `a*(np.log(50000)-logq)**b`.  The exponent `b` is a real
number, so `^` is the real power `Real.rpow`. -/
def qdep_correction (logq a b : ℝ) : ℝ :=
  a * (Real.log 50000 - logq) ^ b

/-- Humidity-dependence calibration (`q_dep_cal` in `pic2_fullcal.py`):
subtracts `qdep_correction` evaluated at `np.log(qvals)` from the delta
values. -/
def q_dep_cal (deltavals qvals a b : ℝ) : ℝ :=
  deltavals - qdep_correction (Real.log qvals) a b

/-- Absolute calibration of humidity or isotope ratios, just a line
(`abscal_line` in `pic2_fullcal.py`): `m*x + k`. -/
def abscal_line (x m k : ℝ) : ℝ :=
  m * x + k

/-- Full calibration of either dD or d18O for Pic1
(`pic1_isoratio_fullcal` in `uncertainty_estimation.py`, lines 54-65):
the humidity-dependence correction is applied first, the absolute
calibration second.  Modelled from the spec: the callees
`pic1_cal.q_dep_cal` and `pic1_cal.abs_cal` live in module `pic1_cal`,
which is not in the repository snapshot; per spec §4.1 they are the same
humidity-dependence and linear absolute-calibration formulas as
`q_dep_cal` / `abscal_line` above, which are used here. -/
def pic1_isoratio_fullcal (d q a b m k : ℝ) : ℝ :=
  abscal_line (q_dep_cal d q a b) m k

/-! ## Cross-calibration formulas (pic2_fullcal.py, `pic2_cal1718`, lines 53-86) -/

/-- Coefficient record for one isotope cross-calibration fit: nine
polynomial coefficients plus a constant (one row of the
`pic2pic1_xcal_dD` / `pic2pic1_xcal_d18O` parameter sheets). -/
structure XcalCoeffs where
  logq3 : ℝ
  logq2 : ℝ
  logq1 : ℝ
  d1 : ℝ
  d2 : ℝ
  d3 : ℝ
  cross1 : ℝ
  cross2 : ℝ
  cross3 : ℝ
  const : ℝ

/-- Humidity cross-calibration (`xcal_h2o`): just a line passing through
the origin, `p['h2o_tot2']*q`. -/
def xcal_h2o (q c : ℝ) : ℝ :=
  c * q

/-- dD cross-calibration (`xcal_dD`, lines 62-70): cubic polynomial in
log-humidity, dD and their product. -/
def xcal_dD (logq dD : ℝ) (p : XcalCoeffs) : ℝ :=
  p.logq3 * logq ^ 3 + p.logq2 * logq ^ 2
    + p.logq1 * logq ^ 1 + p.d1 * dD ^ 1
    + p.d2 * dD ^ 2 + p.d3 * dD ^ 3
    + p.cross1 * (dD * logq) ^ 1
    + p.cross2 * (dD * logq) ^ 2
    + p.cross3 * (dD * logq) ^ 3
    + p.const

/-- d18O cross-calibration (`xcal_d18O`, lines 78-86).  The source line
`+ + p['d18O^3']*d18O**(3)` parses in Python as a binary plus applied to a
unary plus; unary plus on a float/array is the numeric identity, so the
faithful post-parse embedding is the same addition as in `xcal_dD`. -/
def xcal_d18O (logq d18O : ℝ) (p : XcalCoeffs) : ℝ :=
  p.logq3 * logq ^ 3 + p.logq2 * logq ^ 2
    + p.logq1 * logq ^ 1 + p.d1 * d18O ^ 1
    + p.d2 * d18O ^ 2 + p.d3 * d18O ^ 3
    + p.cross1 * (d18O * logq) ^ 1
    + p.cross2 * (d18O * logq) ^ 2
    + p.cross3 * (d18O * logq) ^ 3
    + p.const

/-- The ten-term cubic polynomial exactly as the spec states it (§4.2):
`c_logq3*logQ^3 + c_logq2*logQ^2 + c_logq1*logQ + c_d1*delta + c_d2*delta^2
+ c_d3*delta^3 + c_cross1*(delta*logQ) + c_cross2*(delta*logQ)^2 +
c_cross3*(delta*logQ)^3 + const`.  Written from the spec's words, to be
compared with the source-derived `xcal_dD` / `xcal_d18O`. -/
def crossCalIsoPolySpec (logq delta : ℝ) (p : XcalCoeffs) : ℝ :=
  p.logq3 * logq ^ 3 + p.logq2 * logq ^ 2 + p.logq1 * logq
    + p.d1 * delta + p.d2 * delta ^ 2 + p.d3 * delta ^ 3
    + p.cross1 * (delta * logq) + p.cross2 * (delta * logq) ^ 2
    + p.cross3 * (delta * logq) ^ 3 + p.const

/-! ## Moving-average smoothing (`.rolling(window=10).mean()`, lines 104-111) -/

/-- Trailing moving average with window 10, as produced by pandas
`series.rolling(window=10).mean()` (default `min_periods = window`):
output sample `i` is present exactly when `i ≥ 9` and all ten window
entries `i-9 .. i` are present, in which case it is their sum divided
by 10; otherwise it is missing. -/
def rollingMean10 (x : ℕ → Option ℝ) (i : ℕ) : Option ℝ :=
  if i < 9 then none
  else if ((List.range 10).map fun k => x (i - 9 + k)).all Option.isSome then
    some (((((List.range 10).map fun k => x (i - 9 + k)).map
      fun o => o.getD 0)).sum / 10)
  else none

/-! ## Missing-value sentinel (`data.replace(-9999, np.nan)`, lines 98 and 213) -/

/-- Normalization of the `-9999` missing-value flag to NaN
(`data.replace(-9999, np.nan)`): a sentinel entry becomes missing,
every other entry is kept. -/
def replaceSentinel (v : ℝ) : Option ℝ :=
  if v = -9999 then none else some v

/-! ## 2016 calibration (`pic2_cal16`, lines 152-228) -/

/-- Option-lifted humidity-dependence calibration: NaN in either the delta
or the humidity column propagates to the output. -/
def q_dep_calOpt (d q : Option ℝ) (a b : ℝ) : Option ℝ :=
  lift2 (fun dv qv => q_dep_cal dv qv a b) d q

/-- Option-lifted absolute calibration: NaN propagates. -/
def abscal_lineOpt (x : Option ℝ) (m k : ℝ) : Option ℝ :=
  x.map fun v => abscal_line v m k

/-- The full 2016 parameter set assigned by `pic2_cal16` for one
instrument: humidity-dependence parameters `a, b` per isotope, absolute
calibration slope/intercept per isotope, and for humidity. -/
structure Cal16Params where
  aD : ℝ
  bD : ℝ
  a18O : ℝ
  b18O : ℝ
  mD : ℝ
  kD : ℝ
  m18O : ℝ
  k18O : ℝ
  mq : ℝ
  kq : ℝ

/-- Mako parameters before the fudge factor, exactly the literals of
lines 180-186 (`k18O = -1.041851` as first assigned). -/
def makoBase : Cal16Params :=
  { aD := -0.365, bD := 3.031, a18O := -0.00581, b18O := 4.961
    mD := 1.056412, kD := -5.957469
    m18O := 1.051851, k18O := -1.041851
    mq := 0.8512, kq := 0 }

/-- Mako parameters actually used: line 184 re-assigns
`k18O = k18O + ff` with fudge factor `ff = 3.5`; every other coefficient
keeps its literal value. -/
def makoParams : Cal16Params :=
  { makoBase with k18O := makoBase.k18O + 3.5 }

/-- Mako dD histogram peak of MBL isotope ratios (line 195). -/
def pD_M : ℝ := -75

/-- Gulper dD histogram peak (line 196). -/
def pD_G : ℝ := -94

/-- Mako d18O histogram peak (line 197). -/
def p18O_M : ℝ := -11.5

/-- Gulper d18O histogram peak (line 198). -/
def p18O_G : ℝ := -16.7

/-- Gulper parameters, lines 189-203: slopes are literals, the intercepts
are derived from the histogram peaks as `kD = pD_M - mD*pD_G` and
`k18O = p18O_M - m18O*p18O_G`; no fudge factor is added to anything. -/
def gulperParams : Cal16Params :=
  { aD := 0.035, bD := 4.456, a18O := 0.06707, b18O := 1.889
    mD := 1.094037184, kD := pD_M - 1.094037184 * pD_G
    m18O := 1.06831472, k18O := p18O_M - 1.06831472 * p18O_G
    mq := 0.9085, kq := 0 }

/-- One data row of the time-synced input file: raw dD, d18O and humidity
readings for Pic2 (columns `dD_tot2`, `d18O_tot2`, `h2o_tot2`), possibly
holding the `-9999` sentinel. -/
structure Row16 where
  dD : ℝ
  d18O : ℝ
  h2o : ℝ

/-- One calibrated output row of `pic2_cal16` (values may be missing). -/
structure Out16 where
  dD : Option ℝ
  d18O : Option ℝ
  h2o : Option ℝ

/-- Per-row body of the `pic2_cal16` loop, lines 210-224, in source
order: the sentinel is normalized first (line 213); then the
humidity-dependence corrections for dD and d18O (lines 216-217, reading
the still-uncalibrated humidity), then the isotope absolute calibrations
(lines 220-221), and the humidity absolute calibration last (line 224). -/
def cal16row (p : Cal16Params) (r : Row16) : Out16 :=
  let dD0 := replaceSentinel r.dD
  let d18O0 := replaceSentinel r.d18O
  let q0 := replaceSentinel r.h2o
  let dD1 := q_dep_calOpt dD0 q0 p.aD p.bD
  let d18O1 := q_dep_calOpt d18O0 q0 p.a18O p.b18O
  let dD2 := abscal_lineOpt dD1 p.mD p.kD
  let d18O2 := abscal_lineOpt d18O1 p.m18O p.k18O
  let q1 := abscal_lineOpt q0 p.mq p.kq
  ⟨dD2, d18O2, q1⟩

/-- Parameter selection of `pic2_cal16`, lines 178-203: two independent
equality tests against the closed enumeration `'Mako'`, `'Gulper'`; any
other instrument name leaves all parameters unassigned (`none`), which in
the Python source surfaces as a `NameError` at the first use inside the
loop. -/
def lookupParams16 (pic : String) : Option Cal16Params :=
  if pic = "Mako" then some makoParams
  else if pic = "Gulper" then some gulperParams
  else none

/-- One invocation `pic2_cal16(dates, pic)` over a list of flights (each
flight a list of rows).  With a known instrument every flight is
calibrated row-by-row and written out.  With an unknown instrument the
first loop iteration hits the unassigned parameters (`NameError`) before
any output is written, so the invocation produces no outputs and an
error; with an empty date list the loop body never runs and no error is
raised. -/
def pic2_cal16_run (pic : String) (flights : List (List Row16)) :
    List (List Out16) × Option String :=
  match lookupParams16 pic with
  | some p => (flights.map fun fl => fl.map (cal16row p), none)
  | none => if flights.isEmpty then ([], none) else ([], some "NameError")

/-- Two successive `pic2_cal16` invocations at script level (lines
247-248): a Python exception raised by the first invocation propagates
and the second invocation never runs. -/
def script_run16 (picA : String) (flA : List (List Row16))
    (picB : String) (flB : List (List Row16)) :
    (List (List Out16) × List (List Out16)) × Option String :=
  let r1 := pic2_cal16_run picA flA
  match r1.2 with
  | some e => ((r1.1, []), some e)
  | none =>
      let r2 := pic2_cal16_run picB flB
      ((r1.1, r2.1), r2.2)

/-! ## 2017/2018 cross-calibration (`pic2_cal1718`, lines 33-143) -/

/-- Raw per-flight time series for the three Pic2 columns (indexed by row
number; entries may hold the `-9999` sentinel). -/
structure Flight where
  h2o : ℕ → ℝ
  dD : ℕ → ℝ
  d18O : ℕ → ℝ

/-- Per-flight series after sentinel normalization / after calibration
(entries may be missing). -/
structure FlightCal where
  h2o : ℕ → Option ℝ
  dD : ℕ → Option ℝ
  d18O : ℕ → Option ℝ

/-- Option-lifted humidity cross-calibration: NaN propagates. -/
def xcal_h2oOpt (q : Option ℝ) (c : ℝ) : Option ℝ :=
  q.map fun v => xcal_h2o v c

/-- Option-lifted dD cross-calibration: missing log-humidity or missing
smoothed dD propagates to the output. -/
def xcal_dDOpt (logq dD : Option ℝ) (p : XcalCoeffs) : Option ℝ :=
  lift2 (fun l d => xcal_dD l d p) logq dD

/-- Option-lifted d18O cross-calibration. -/
def xcal_d18OOpt (logq d18O : Option ℝ) (p : XcalCoeffs) : Option ℝ :=
  lift2 (fun l d => xcal_d18O l d p) logq d18O

/-- Per-flight body of the `pic2_cal1718` loop, lines 96-141, in source
order: sentinel normalization (line 98, state `s0`); the corrected
humidity (line 101), the dD and d18O cross-calibrations (lines 104-111) —
all three computed from `s0`, with `np.log(data['h2o_tot2'])` reading the
still-raw humidity column; only afterwards are the three corrected series
written back one column at a time (lines 137-139, states `s1`-`s3`). -/
def pic2_cal1718_flight (ph : ℝ) (pD p18 : XcalCoeffs) (f : Flight) :
    FlightCal :=
  let s0 : FlightCal :=
    ⟨fun i => replaceSentinel (f.h2o i),
     fun i => replaceSentinel (f.dD i),
     fun i => replaceSentinel (f.d18O i)⟩
  let h2o_corrected := fun i => xcal_h2oOpt (s0.h2o i) ph
  let dD_corrected := fun i =>
    xcal_dDOpt ((s0.h2o i).map Real.log) (rollingMean10 s0.dD i) pD
  let d18O_corrected := fun i =>
    xcal_d18OOpt ((s0.h2o i).map Real.log) (rollingMean10 s0.d18O i) p18
  let s1 := { s0 with h2o := h2o_corrected }
  let s2 := { s1 with dD := dD_corrected }
  let s3 := { s2 with d18O := d18O_corrected }
  s3

/-! ## Monte Carlo uncertainty runs (`uncertainty_estimation.py`) -/

/-- One point of `np.linspace(a, b, n)`: `a + k*(b-a)/(n-1)` for
`k = 0, …, n-1`. -/
def linspace (a b : ℝ) (n k : ℕ) : ℝ :=
  a + k * ((b - a) / ((n : ℝ) - 1))

/-- The flattened `np.meshgrid` of `linspace qlo qhi nq` against
`linspace dlo dhi nd`: all pairs `(q_j, d_i)` in row-major order. -/
def gridPts (qlo qhi : ℝ) (nq : ℕ) (dlo dhi : ℝ) (nd : ℕ) :
    List (ℝ × ℝ) :=
  (List.range nd).flatMap fun i =>
    (List.range nq).map fun j => (linspace qlo qhi nq j, linspace dlo dhi nd i)

/-- The 4 isotope calibration parameters `[a, b, m, k]` passed to the
Monte Carlo sampler. -/
structure CalParams4 where
  a : ℝ
  b : ℝ
  m : ℝ
  k : ℝ

/-- One invocation of `mc.mc_normalsampler` as issued by the uncertainty
code: the (flattened) evaluation grid, mean parameters, parameter
standard deviations, number of trials, and whether per-input measurement
noise is included.  The sampler itself (module `mc_sampler`, not in the
repository snapshot) is treated as an external collaborator; only the
call data recorded here is verified. -/
structure MCCall where
  pts : List (ℝ × ℝ)
  params : CalParams4
  sigparams : CalParams4
  ntrials : ℕ
  withNoise : Bool

/-- The `mc.mc_normalsampler` call issued by `sigma_with_fit_dD`
(lines 302-321): grid `meshgrid(linspace(1500,22000,100),
linspace(-300,-60,150))` and 6000 trials in both the with-noise and the
no-noise branch. -/
def dD_mc_call (p sp : CalParams4) (withNoise : Bool) : MCCall :=
  ⟨gridPts 1500 22000 100 (-300) (-60) 150, p, sp, 6000, withNoise⟩

/-- The `mc.mc_normalsampler` call issued by `sigma_with_fit_d18O`
(lines 355-374): grid `meshgrid(linspace(1500,22000,100),
linspace(-30,-8,150))` and 6000 trials in both branches. -/
def d18O_mc_call (p sp : CalParams4) (withNoise : Bool) : MCCall :=
  ⟨gridPts 1500 22000 100 (-30) (-8) 150, p, sp, 6000, withNoise⟩

/-- The `mc.mc_normalsampler` call issued by `wisper_uncertainties_MC`
(lines 71-84) on a caller-supplied grid: 6000 trials in both branches. -/
def wisper_MC_call (pts : List (ℝ × ℝ)) (p sp : CalParams4)
    (withNoise : Bool) : MCCall :=
  ⟨pts, p, sp, 6000, withNoise⟩

/-! ## Surrogate fit (`fit_poly`, lines 90-116, and the identical fit
sections of `sigma_with_fit_dD` / `sigma_with_fit_d18O`) -/

/-- Result of one ordinary-least-squares fit: a 6-element coefficient
vector and the coefficient of determination. -/
structure OLSFit where
  params : Fin 6 → ℝ
  rsquared : ℝ

/-- An OLS implementation, mapping a list of (predictor-row, target)
pairs to a fit.  Modelled from the spec: `statsmodels.api.OLS` is an
external library, treated as an abstract ordinary-least-squares
collaborator. -/
def OLSImpl : Type :=
  List ((Fin 6 → ℝ) × ℝ) → OLSFit

/-- The predictor row built by `fit_poly` for one grid point: exactly the
six columns `['const','logq','logq^2','logq^3','logq^4','d']`. -/
def designRow (q d : ℝ) : Fin 6 → ℝ :=
  ![1, Real.log q, Real.log q ^ 2, Real.log q ^ 3, Real.log q ^ 4, d]

/-- The design data handed to OLS under `missing='drop'`: a row whose
standard-deviation target is missing contributes nothing; every other row
contributes its six predictors and its target. -/
def designData (rows : List (ℝ × ℝ × Option ℝ)) :
    List ((Fin 6 → ℝ) × ℝ) :=
  rows.filterMap fun r => (r.2.2).map fun s => (designRow r.1 r.2.1, s)

/-- `fit_poly(q, d, sig_d)` (lines 90-116): builds the six predictor
columns, fits by OLS with rows containing missing values dropped, prints
the (rounded) R² without comparing it to any threshold, and returns the
fitted coefficient vector `fit.params`. -/
def fit_poly (ols : OLSImpl) (rows : List (ℝ × ℝ × Option ℝ)) :
    Fin 6 → ℝ :=
  (ols (designData rows)).params

/-! ## Helper lemmas -/

/-- Missing propagates through a lifted binary operation (left operand). -/
@[simp] lemma lift2_none_left (f : ℝ → ℝ → ℝ) (y : Option ℝ) :
    lift2 f none y = none := by
  cases y <;> rfl

/-- Missing propagates through a lifted binary operation (right operand). -/
@[simp] lemma lift2_none_right (f : ℝ → ℝ → ℝ) (x : Option ℝ) :
    lift2 f x none = none := by
  cases x <;> rfl

/-- A lifted binary operation on two present values. -/
@[simp] lemma lift2_some_some (f : ℝ → ℝ → ℝ) (x y : ℝ) :
    lift2 f (some x) (some y) = some (f x y) := rfl

/-- A rolling-mean output is missing whenever the input sample at its own
index is missing (the trailing window always contains the index itself). -/
lemma rollingMean10_none (x : ℕ → Option ℝ) (i : ℕ) (hx : x i = none) :
    rollingMean10 x i = none := by
  unfold rollingMean10
  split
  · rfl
  · next hi =>
    rw [if_neg]
    intro hall
    have hmem : x i ∈ (List.range 10).map fun k => x (i - 9 + k) := by
      refine List.mem_map.mpr ⟨9, by simp, ?_⟩
      congr 1
      omega
    have := List.all_eq_true.mp hall _ hmem
    rw [hx] at this
    simp at this

/-- Every membership in a meshgrid point list. -/
lemma gridPts_mem (qlo qhi dlo dhi : ℝ) (nq nd i j : ℕ)
    (hi : i < nd) (hj : j < nq) :
    (linspace qlo qhi nq j, linspace dlo dhi nd i)
      ∈ gridPts qlo qhi nq dlo dhi nd := by
  unfold gridPts
  exact List.mem_flatMap.mpr
    ⟨i, List.mem_range.mpr hi,
      List.mem_map.mpr ⟨j, List.mem_range.mpr hj, rfl⟩⟩

/-- A linspace point stays between its endpoints. -/
lemma linspace_bounds (a b : ℝ) (n k : ℕ) (hab : a ≤ b) (h2 : 2 ≤ n)
    (hk : k < n) : a ≤ linspace a b n k ∧ linspace a b n k ≤ b := by
  have hn1 : (0 : ℝ) < (n : ℝ) - 1 := by
    have : (2 : ℝ) ≤ (n : ℝ) := by exact_mod_cast h2
    linarith
  have hk' : (k : ℝ) ≤ (n : ℝ) - 1 := by
    have : (k : ℝ) + 1 ≤ (n : ℝ) := by exact_mod_cast hk
    linarith
  have hstep : (0 : ℝ) ≤ (b - a) / ((n : ℝ) - 1) :=
    div_nonneg (by linarith) hn1.le
  constructor
  · have : (0 : ℝ) ≤ (k : ℝ) * ((b - a) / ((n : ℝ) - 1)) :=
      mul_nonneg (Nat.cast_nonneg k) hstep
    unfold linspace
    linarith
  · have h1 : (k : ℝ) * ((b - a) / ((n : ℝ) - 1))
        ≤ ((n : ℝ) - 1) * ((b - a) / ((n : ℝ) - 1)) :=
      mul_le_mul_of_nonneg_right hk' hstep
    have h2' : ((n : ℝ) - 1) * ((b - a) / ((n : ℝ) - 1)) = b - a := by
      field_simp
    unfold linspace
    linarith

/-! ## Claim theorems -/

/-- C1: the composite full calibration applies the humidity-dependence
correction first and the absolute calibration second, computing
`m*(d - a*(ln(50000) - ln(q))^b) + k`; moreover the swapped order is a
genuinely different composite (witnessed at a concrete input), so the
fixed order is not vacuous. -/
theorem fullcal_order_correct (d q a b m k : ℝ) :
    pic1_isoratio_fullcal d q a b m k
        = m * (d - a * (Real.log 50000 - Real.log q) ^ b) + k ∧
    pic1_isoratio_fullcal d q a b m k
        = abscal_line (q_dep_cal d q a b) m k ∧
    q_dep_cal (abscal_line 0 2 0) 1 1 1 ≠ pic1_isoratio_fullcal 0 1 1 1 2 0 := by
  refine ⟨rfl, rfl, ?_⟩
  have hL : 0 < Real.log 50000 := Real.log_pos (by norm_num)
  simp only [pic1_isoratio_fullcal, q_dep_cal, abscal_line, qdep_correction,
    Real.log_one, Real.rpow_one]
  intro h
  nlinarith [hL]

/-- C2: both isotope cross-calibration functions evaluate to the ten-term
cubic polynomial of the spec; in particular `xcal_d18O`, whose source has
the duplicated addition operator (a numerically inert unary plus), equals
that same polynomial. -/
theorem xcal_iso_ten_term_poly (logq delta : ℝ) (p : XcalCoeffs) :
    xcal_dD logq delta p = crossCalIsoPolySpec logq delta p ∧
    xcal_d18O logq delta p = crossCalIsoPolySpec logq delta p := by
  constructor <;>
    · simp only [xcal_dD, xcal_d18O, crossCalIsoPolySpec]
      ring

/-- C5: in the 2016 calibration, Mako's d18O absolute-calibration
intercept is `-1.041851 + 3.5` (the only fudge-factor adjustment); every
other Mako coefficient keeps its hard-coded literal, and every Gulper
coefficient equals its literal or its peak-derived value, with no
additive adjustment anywhere else. -/
theorem mako_fudge_factor_unique :
    makoParams = { makoBase with k18O := makoBase.k18O + 3.5 } ∧
    makoParams.k18O = -1.041851 + 3.5 ∧
    makoParams.aD = -0.365 ∧ makoParams.bD = 3.031 ∧
    makoParams.a18O = -0.00581 ∧ makoParams.b18O = 4.961 ∧
    makoParams.mD = 1.056412 ∧ makoParams.kD = -5.957469 ∧
    makoParams.m18O = 1.051851 ∧
    makoParams.mq = 0.8512 ∧ makoParams.kq = 0 ∧
    gulperParams.aD = 0.035 ∧ gulperParams.bD = 4.456 ∧
    gulperParams.a18O = 0.06707 ∧ gulperParams.b18O = 1.889 ∧
    gulperParams.mD = 1.094037184 ∧
    gulperParams.kD = pD_M - gulperParams.mD * pD_G ∧
    gulperParams.m18O = 1.06831472 ∧
    gulperParams.k18O = p18O_M - gulperParams.m18O * p18O_G ∧
    gulperParams.mq = 0.9085 ∧ gulperParams.kq = 0 :=
  ⟨rfl, rfl, rfl, rfl, rfl, rfl, rfl, rfl, rfl, rfl, rfl, rfl, rfl, rfl,
   rfl, rfl, rfl, rfl, rfl, rfl, rfl⟩

/-- C7 counterexample: with exponent `b = 0` but coefficient `a = 1`, the
humidity-dependence correction is not the identity — at `d = 0`, `q = 1`
(which satisfies `q > 0`) it returns `-1`, refuting the claim for
arbitrary `a`. -/
theorem qdep_b0_not_identity :
    (0 : ℝ) < 1 ∧ q_dep_cal 0 1 1 0 ≠ 0 := by
  constructor
  · norm_num
  · simp [q_dep_cal, qdep_correction, Real.rpow_zero]

/-- C7 amended: with exponent `b = 0` the humidity-dependence correction
subtracts the constant `a` from the delta value (`(⋅)^0 = 1`), so it is
the identity exactly when `a = 0`. -/
theorem qdep_b0_subtracts_a (d q a : ℝ) (_hq : 0 < q) :
    q_dep_cal d q a 0 = d - a := by
  simp [q_dep_cal, qdep_correction, Real.rpow_zero]

/-- C7 amended, witness at `d = 5`, `q = 2`, `a = 3`. -/
theorem qdep_b0_subtracts_a_witness :
    (0 : ℝ) < 2 ∧ q_dep_cal 5 2 3 0 = 5 - 3 :=
  ⟨by norm_num, qdep_b0_subtracts_a 5 2 3 (by norm_num)⟩

/-- C10: in the 2017/2018 cross-calibration, the log-humidity passed to
both isotope formulas is computed from the raw (sentinel-normalized, not
yet cross-calibrated) humidity series; the isotope outputs do not depend
on the humidity cross-calibration coefficient at all, so applying the
humidity cross-calibration never alters the isotope inputs. -/
theorem xcal1718_uses_raw_humidity (ph : ℝ) (pD p18 : XcalCoeffs)
    (f : Flight) (i : ℕ) :
    (pic2_cal1718_flight ph pD p18 f).dD i
        = xcal_dDOpt ((replaceSentinel (f.h2o i)).map Real.log)
            (rollingMean10 (fun j => replaceSentinel (f.dD j)) i) pD ∧
    (pic2_cal1718_flight ph pD p18 f).d18O i
        = xcal_d18OOpt ((replaceSentinel (f.h2o i)).map Real.log)
            (rollingMean10 (fun j => replaceSentinel (f.d18O j)) i) p18 ∧
    (pic2_cal1718_flight ph pD p18 f).h2o i
        = xcal_h2oOpt (replaceSentinel (f.h2o i)) ph ∧
    ∀ ph' : ℝ,
      (pic2_cal1718_flight ph' pD p18 f).dD
          = (pic2_cal1718_flight ph pD p18 f).dD ∧
      (pic2_cal1718_flight ph' pD p18 f).d18O
          = (pic2_cal1718_flight ph pD p18 f).d18O :=
  ⟨rfl, rfl, rfl, fun _ => ⟨rfl, rfl⟩⟩

/-- C3: the moving-average smoothing uses a trailing window of exactly 10
samples: output samples 0 through 8 are missing, and for `i ≥ 9` with all
of input samples `i-9 .. i` present, output `i` is their arithmetic
mean. -/
theorem rollingMean10_window_spec (x : ℕ → Option ℝ) (v : ℕ → ℝ) (i : ℕ) :
    (i < 9 → rollingMean10 x i = none) ∧
    (9 ≤ i → (∀ k, k < 10 → x (i - 9 + k) = some (v k)) →
      rollingMean10 x i = some ((∑ k ∈ Finset.range 10, v k) / 10)) := by
  constructor
  · intro h
    simp [rollingMean10, h]
  · intro h9 hall
    have hrange : List.range 10 = [0, 1, 2, 3, 4, 5, 6, 7, 8, 9] := rfl
    unfold rollingMean10
    rw [if_neg (by omega), hrange]
    simp only [List.map_cons, List.map_nil]
    rw [hall 0 (by norm_num), hall 1 (by norm_num), hall 2 (by norm_num),
      hall 3 (by norm_num), hall 4 (by norm_num), hall 5 (by norm_num),
      hall 6 (by norm_num), hall 7 (by norm_num), hall 8 (by norm_num),
      hall 9 (by norm_num)]
    simp [Finset.sum_range_succ]
    ring

/-- C3, witness: on the series `0, 1, 2, …` the smoothed output at index 3
is missing and at index 9 equals `(0 + 1 + ⋯ + 9)/10 = 9/2`. -/
theorem rollingMean10_window_spec_witness :
    rollingMean10 (fun j => some (j : ℝ)) 3 = none ∧
    rollingMean10 (fun j => some (j : ℝ)) 9 = some (9 / 2) := by
  constructor
  · exact (rollingMean10_window_spec (fun j => some (j : ℝ))
      (fun k => (k : ℝ)) 3).1 (by norm_num)
  · have h := (rollingMean10_window_spec (fun j => some (j : ℝ))
      (fun k => (k : ℝ)) 9).2 (by norm_num) (fun k hk => by simp)
    rw [h]
    norm_num [Finset.sum_range_succ]

/-- C4: the `-9999` sentinel is normalized to missing before any
calibration formula runs (each output channel is the corresponding
formula applied to the sentinel-normalized inputs), and a missing value
in any input channel propagates to the affected outputs as missing —
never replaced by an imputed value — in both the 2016 and the 2017/2018
pipelines. -/
theorem sentinel_nan_propagation (p : Cal16Params) (r : Row16) (ph : ℝ)
    (pD p18 : XcalCoeffs) (f : Flight) (i : ℕ) :
    (cal16row p r).dD
        = abscal_lineOpt (q_dep_calOpt (replaceSentinel r.dD)
            (replaceSentinel r.h2o) p.aD p.bD) p.mD p.kD ∧
    (cal16row p r).d18O
        = abscal_lineOpt (q_dep_calOpt (replaceSentinel r.d18O)
            (replaceSentinel r.h2o) p.a18O p.b18O) p.m18O p.k18O ∧
    (cal16row p r).h2o = abscal_lineOpt (replaceSentinel r.h2o) p.mq p.kq ∧
    replaceSentinel (-9999) = none ∧
    (r.dD = -9999 → (cal16row p r).dD = none) ∧
    (r.d18O = -9999 → (cal16row p r).d18O = none) ∧
    (r.h2o = -9999 → (cal16row p r).dD = none ∧ (cal16row p r).d18O = none ∧
      (cal16row p r).h2o = none) ∧
    (f.h2o i = -9999 → (pic2_cal1718_flight ph pD p18 f).h2o i = none ∧
      (pic2_cal1718_flight ph pD p18 f).dD i = none ∧
      (pic2_cal1718_flight ph pD p18 f).d18O i = none) ∧
    (f.dD i = -9999 → (pic2_cal1718_flight ph pD p18 f).dD i = none) ∧
    (f.d18O i = -9999 → (pic2_cal1718_flight ph pD p18 f).d18O i = none) := by
  refine ⟨rfl, rfl, rfl, by simp [replaceSentinel], ?_, ?_, ?_, ?_, ?_, ?_⟩
  · intro h
    simp [cal16row, replaceSentinel, h, q_dep_calOpt, abscal_lineOpt]
  · intro h
    simp [cal16row, replaceSentinel, h, q_dep_calOpt, abscal_lineOpt]
  · intro h
    refine ⟨?_, ?_, ?_⟩ <;>
      simp [cal16row, replaceSentinel, h, q_dep_calOpt, abscal_lineOpt]
  · intro h
    refine ⟨?_, ?_, ?_⟩ <;>
      simp [pic2_cal1718_flight, replaceSentinel, h, xcal_h2oOpt,
        xcal_dDOpt, xcal_d18OOpt]
  · intro h
    have hnone : rollingMean10 (fun j => replaceSentinel (f.dD j)) i = none :=
      rollingMean10_none _ _ (by simp [replaceSentinel, h])
    simp [pic2_cal1718_flight, xcal_dDOpt, hnone]
  · intro h
    have hnone : rollingMean10 (fun j => replaceSentinel (f.d18O j)) i = none :=
      rollingMean10_none _ _ (by simp [replaceSentinel, h])
    simp [pic2_cal1718_flight, xcal_d18OOpt, hnone]

/-- C4, witness: an all-sentinel 2016 row calibrates to all-missing, and
a 2017/2018 flight with sentinel humidity yields missing dD output. -/
theorem sentinel_nan_propagation_witness :
    (cal16row makoParams ⟨-9999, -9999, -9999⟩).dD = none ∧
    (cal16row makoParams ⟨-9999, -9999, -9999⟩).d18O = none ∧
    (cal16row makoParams ⟨-9999, -9999, -9999⟩).h2o = none ∧
    (pic2_cal1718_flight 1 ⟨0, 0, 0, 0, 0, 0, 0, 0, 0, 0⟩
      ⟨0, 0, 0, 0, 0, 0, 0, 0, 0, 0⟩
      ⟨fun _ => -9999, fun _ => 0, fun _ => 0⟩).dD 0 = none := by
  have h := sentinel_nan_propagation makoParams ⟨-9999, -9999, -9999⟩ 1
    ⟨0, 0, 0, 0, 0, 0, 0, 0, 0, 0⟩ ⟨0, 0, 0, 0, 0, 0, 0, 0, 0, 0⟩
    ⟨fun _ => -9999, fun _ => 0, fun _ => 0⟩ 0
  obtain ⟨-, -, -, -, h5, h6, h7, h8, -, -⟩ := h
  exact ⟨h5 rfl, h6 rfl, (h7 rfl).2.2, (h8 rfl).2.1⟩

/-- C6 counterexample: with the unknown instrument name `"Piccolo"`, the
error raised in the first invocation propagates: the second, validly
configured `"Mako"` invocation — which on its own would produce output —
is never processed, refuting "processing of other flights continues". -/
theorem unknown_pic_halts_counterexample :
    (script_run16 "Piccolo" [[⟨0, 0, 0⟩]] "Mako" [[⟨0, 0, 0⟩]]).1.2 = [] ∧
    (pic2_cal16_run "Mako" [[⟨0, 0, 0⟩]]).1 ≠ [] ∧
    (script_run16 "Piccolo" [[⟨0, 0, 0⟩]] "Mako" [[⟨0, 0, 0⟩]]).2
        = some "NameError" := by
  refine ⟨?_, ?_, ?_⟩
  · simp [script_run16, pic2_cal16_run, lookupParams16]
  · simp [pic2_cal16_run, lookupParams16]
  · simp [script_run16, pic2_cal16_run, lookupParams16]

/-- C6 amended: an unknown instrument name with a nonempty date list
fails fast (the unassigned parameters surface as a `NameError` in the
first loop iteration) and writes no calibrated output — parameters are
never silently defaulted; but the exception propagates, aborting the
remaining flights of the invocation and all subsequent invocations
rather than continuing with other flights. -/
theorem unknown_pic_fail_fast (pic : String) (flights : List (List Row16))
    (picB : String) (flB : List (List Row16))
    (hun : lookupParams16 pic = none) (hne : flights ≠ []) :
    pic2_cal16_run pic flights = ([], some "NameError") ∧
    script_run16 pic flights picB flB = (([], []), some "NameError") := by
  have h1 : pic2_cal16_run pic flights = ([], some "NameError") := by
    unfold pic2_cal16_run
    rw [hun]
    simp [hne]
  exact ⟨h1, by simp [script_run16, h1]⟩

/-- C6 amended, witness: concrete unknown instrument `"Piccolo"` with one
flight of one row, followed by a `"Gulper"` invocation that never runs. -/
theorem unknown_pic_fail_fast_witness :
    lookupParams16 "Piccolo" = none ∧
    ([[(⟨0, 0, 0⟩ : Row16)]] : List (List Row16)) ≠ [] ∧
    pic2_cal16_run "Piccolo" [[⟨0, 0, 0⟩]] = ([], some "NameError") ∧
    script_run16 "Piccolo" [[⟨0, 0, 0⟩]] "Gulper" []
        = (([], []), some "NameError") := by
  have hun : lookupParams16 "Piccolo" = none := by simp [lookupParams16]
  have hne : ([[(⟨0, 0, 0⟩ : Row16)]] : List (List Row16)) ≠ [] := by simp
  have h := unknown_pic_fail_fast "Piccolo" [[⟨0, 0, 0⟩]] "Gulper" [] hun hne
  exact ⟨hun, hne, h.1, h.2⟩

/-- C8: every Monte Carlo uncertainty call passes exactly 6000 trials
(with and without measurement noise), and the fixed evaluation grids
span humidity 1500–22000 ppmv crossed with dD −300 to −60 permil
(dD runs) and with d18O −30 to −8 permil (d18O runs): every grid point
lies inside those bounds and the bounds are attained. -/
theorem mc_runs_6000_trials_fixed_grid (p sp : CalParams4) (b1 b2 : Bool)
    (pts : List (ℝ × ℝ)) (i j : ℕ) (hi : i < 150) (hj : j < 100) :
    (dD_mc_call p sp b1).ntrials = 6000 ∧
    (d18O_mc_call p sp b2).ntrials = 6000 ∧
    (wisper_MC_call pts p sp b1).ntrials = 6000 ∧
    (dD_mc_call p sp b1).pts = gridPts 1500 22000 100 (-300) (-60) 150 ∧
    (d18O_mc_call p sp b2).pts = gridPts 1500 22000 100 (-30) (-8) 150 ∧
    (linspace 1500 22000 100 j, linspace (-300) (-60) 150 i)
        ∈ (dD_mc_call p sp b1).pts ∧
    (linspace 1500 22000 100 j, linspace (-30) (-8) 150 i)
        ∈ (d18O_mc_call p sp b2).pts ∧
    1500 ≤ linspace 1500 22000 100 j ∧ linspace 1500 22000 100 j ≤ 22000 ∧
    -300 ≤ linspace (-300) (-60) 150 i ∧ linspace (-300) (-60) 150 i ≤ -60 ∧
    -30 ≤ linspace (-30) (-8) 150 i ∧ linspace (-30) (-8) 150 i ≤ -8 ∧
    linspace 1500 22000 100 0 = 1500 ∧ linspace 1500 22000 100 99 = 22000 ∧
    linspace (-300) (-60) 150 0 = -300 ∧ linspace (-300) (-60) 150 149 = -60 ∧
    linspace (-30) (-8) 150 0 = -30 ∧ linspace (-30) (-8) 150 149 = -8 := by
  obtain ⟨hq1, hq2⟩ :=
    linspace_bounds 1500 22000 100 j (by norm_num) (by norm_num) hj
  obtain ⟨hd1, hd2⟩ :=
    linspace_bounds (-300) (-60) 150 i (by norm_num) (by norm_num) hi
  obtain ⟨ho1, ho2⟩ :=
    linspace_bounds (-30) (-8) 150 i (by norm_num) (by norm_num) hi
  refine ⟨rfl, rfl, rfl, rfl, rfl,
    gridPts_mem _ _ _ _ _ _ _ _ hi hj, gridPts_mem _ _ _ _ _ _ _ _ hi hj,
    hq1, hq2, hd1, hd2, ho1, ho2, ?_, ?_, ?_, ?_, ?_, ?_⟩ <;>
    norm_num [linspace]

/-- C8, witness at grid indices `(0, 0)` with zero parameter records. -/
theorem mc_runs_6000_trials_fixed_grid_witness :
    (0 : ℕ) < 150 ∧ (0 : ℕ) < 100 ∧
    (dD_mc_call ⟨0, 0, 0, 0⟩ ⟨0, 0, 0, 0⟩ true).ntrials = 6000 ∧
    (d18O_mc_call ⟨0, 0, 0, 0⟩ ⟨0, 0, 0, 0⟩ false).ntrials = 6000 ∧
    (wisper_MC_call [] ⟨0, 0, 0, 0⟩ ⟨0, 0, 0, 0⟩ true).ntrials = 6000 ∧
    (linspace 1500 22000 100 0, linspace (-300) (-60) 150 0)
        ∈ (dD_mc_call ⟨0, 0, 0, 0⟩ ⟨0, 0, 0, 0⟩ true).pts ∧
    1500 ≤ linspace 1500 22000 100 0 ∧ linspace 1500 22000 100 0 ≤ 22000 := by
  have h := mc_runs_6000_trials_fixed_grid ⟨0, 0, 0, 0⟩ ⟨0, 0, 0, 0⟩ true false
    [] 0 0 (by norm_num) (by norm_num)
  obtain ⟨c1, c2, c3, -, -, c6, -, c8, c9, -⟩ := h
  exact ⟨by norm_num, by norm_num, c1, c2, c3, c6, c8, c9⟩

/-- C9: the surrogate fitter regresses onto exactly the six predictors
`const, ln(q), ln(q)^2, ln(q)^3, ln(q)^4, delta`, drops rows with a
missing target before fitting, returns the 6-element coefficient vector
of the OLS fit, and never branches on R²: any two OLS implementations
agreeing on coefficients (whatever their R²) give the same result. -/
theorem fit_poly_six_predictors (ols ols' : OLSImpl)
    (rows : List (ℝ × ℝ × Option ℝ)) (q d s : ℝ)
    (hsame : ∀ dat, (ols' dat).params = (ols dat).params) :
    fit_poly ols rows = (ols (designData rows)).params ∧
    designData ((q, d, none) :: rows) = designData rows ∧
    designData ((q, d, some s) :: rows)
        = (designRow q d, s) :: designData rows ∧
    designRow q d
        = ![1, Real.log q, Real.log q ^ 2, Real.log q ^ 3,
            Real.log q ^ 4, d] ∧
    designRow q d 0 = 1 ∧ designRow q d 1 = Real.log q ∧
    designRow q d 5 = d ∧
    fit_poly ols' rows = fit_poly ols rows := by
  refine ⟨rfl, ?_, ?_, rfl, rfl, rfl, rfl, ?_⟩
  · simp [designData]
  · simp [designData]
  · simp [fit_poly, hsame]

/-- C9, witness: two constant OLS stubs with equal coefficients but
different R² (0 versus 1) produce the same `fit_poly` output on a
one-row dataset. -/
theorem fit_poly_six_predictors_witness :
    (∀ dat, ((fun _ => OLSFit.mk (fun _ => 0) 1 : OLSImpl) dat).params
        = ((fun _ => OLSFit.mk (fun _ => 0) 0 : OLSImpl) dat).params) ∧
    fit_poly (fun _ => OLSFit.mk (fun _ => 0) 1) [(1, 2, some 3)]
        = fit_poly (fun _ => OLSFit.mk (fun _ => 0) 0) [(1, 2, some 3)] := by
  have hsame : ∀ dat, ((fun _ => OLSFit.mk (fun _ => 0) 1 : OLSImpl) dat).params
      = ((fun _ => OLSFit.mk (fun _ => 0) 0 : OLSImpl) dat).params :=
    fun _ => rfl
  have h := fit_poly_six_predictors (fun _ => OLSFit.mk (fun _ => 0) 0)
    (fun _ => OLSFit.mk (fun _ => 0) 1) [(1, 2, some 3)] 1 2 3 hsame
  exact ⟨hsame, h.2.2.2.2.2.2.2⟩

end WISPER
